import Mathlib

/-!
Verification of the SwiftRental customer-lifecycle endpoints.

The definitions below are a shallow embedding of the repository's code:

* the Prisma data model (`prisma/schema.prisma`, `prisma/migrations/.../migration.sql`):
  tables `Customer`, `Car`, `Rental`, the enums `CarStatus` and `RentalStatus`,
  the unique index `Customer_email_key`, `SERIAL` id generation, and the
  foreign key `Rental_customerId_fkey ... ON DELETE RESTRICT`;
* the route handlers `POST /customers`, `GET /customers` (collection route file)
  and `GET/PUT/DELETE /customers/[id]` (item route file);
* the server component `CustomerDetailsPage`, whose query loads a customer
  together with its rentals (ordered by `startDate` descending) and each
  rental's car.

Timestamps are modelled as an abstract `Nat` clock carried by the store state;
JavaScript `parseInt` and string truthiness are modelled explicitly.
-/

namespace SwiftRental

/-- Rental status enum from the Prisma schema: ACTIVE, COMPLETED, CANCELLED. -/
inductive RentalStatus where
  | ACTIVE
  | COMPLETED
  | CANCELLED
deriving DecidableEq, Repr

/-- Car status enum from the Prisma schema. -/
inductive CarStatus where
  | AVAILABLE
  | RENTED
  | MAINTENANCE
  | UNAVAILABLE
deriving DecidableEq, Repr

/-- A row of the `Customer` table. `phone` and `address` are nullable (`String?`);
`createdAt`/`updatedAt` are timestamps, modelled by an abstract clock value. -/
structure Customer where
  id : Int
  firstName : String
  lastName : String
  email : String
  phone : Option String
  address : Option String
  createdAt : Nat
  updatedAt : Nat
deriving DecidableEq, Repr

/-- A row of the `Car` table. -/
structure Car where
  id : Int
  brand : String
  model : String
  year : Int
  licensePlate : String
  color : Option String
  mileage : Int
  status : CarStatus
deriving DecidableEq, Repr

/-- A row of the `Rental` table; `customerId` and `carId` are foreign keys. -/
structure Rental where
  id : Int
  customerId : Int
  carId : Int
  startDate : Nat
  endDate : Option Nat
  startMileage : Int
  endMileage : Option Int
  status : RentalStatus
deriving DecidableEq, Repr

/-- The relational store: the three tables, the `SERIAL` counter for
`Customer.id`, and the clock used for `createdAt`/`updatedAt`. -/
structure DB where
  customers : List Customer
  cars : List Car
  rentals : List Rental
  nextCustomerId : Int
  now : Nat
deriving DecidableEq, Repr

/-- The JSON request body of the create/update handlers. Each field is absent
(`none`, i.e. the JSON key is missing or null) or a string. -/
structure CustomerData where
  firstName : Option String
  lastName : Option String
  email : Option String
  phone : Option String
  address : Option String
deriving DecidableEq, Repr

/-- A `NextResponse.json` value: either a success body with its HTTP status, or
an error, whose body is always of shape `\x7bmessage: string\x7d`. -/
inductive ApiResponse (α : Type) where
  | ok (status : Nat) (body : α)
  | err (status : Nat) (message : String)
deriving DecidableEq, Repr

/-- JavaScript truthiness test `!x` for a field that is absent or a string:
absent (undefined/null) and the empty string are falsy. -/
def strFalsy : Option String → Bool
  | none => true
  | some s => s = ""

/-- JavaScript `x || null` for a field that is absent or a string: the empty
string (the only falsy string) is coerced to null, as are undefined/null. -/
def orNull : Option String → Option String
  | none => none
  | some s => if s = "" then none else some s

/-- Value of a character as a digit in the given base, as in JavaScript
`parseInt` digit parsing (`0-9`, `a-z`, `A-Z`). -/
def digitValue? (base : Nat) (c : Char) : Option Nat :=
  let v :=
    if '0' ≤ c ∧ c ≤ '9' then some (c.toNat - '0'.toNat)
    else if 'a' ≤ c ∧ c ≤ 'z' then some (c.toNat - 'a'.toNat + 10)
    else if 'A' ≤ c ∧ c ≤ 'Z' then some (c.toNat - 'A'.toNat + 10)
    else none
  match v with
  | some d => if d < base then some d else none
  | none => none

/-- JavaScript `parseInt(s)` with no radix argument, as used by the route
handlers on `params.id`: skip leading whitespace, read an optional sign, detect
a `0x`/`0X` hexadecimal prefix (radix 16, else 10), then take the longest
prefix of valid digits; `none` models `NaN` (no digits). -/
def jsParseInt (s : String) : Option Int :=
  let l := s.data.dropWhile (fun c => c.isWhitespace)
  let p1 : Int × List Char :=
    match l with
    | '-' :: rest => (-1, rest)
    | '+' :: rest => (1, rest)
    | _ => (1, l)
  let p2 : Nat × List Char :=
    match p1.2 with
    | '0' :: 'x' :: rest => (16, rest)
    | '0' :: 'X' :: rest => (16, rest)
    | _ => (10, p1.2)
  let ds := (p2.2.takeWhile (fun c => (digitValue? p2.1 c).isSome)).filterMap (digitValue? p2.1)
  if ds.isEmpty then none
  else some (p1.1 * ((ds.foldl (fun a d => a * p2.1 + d) 0 : Nat) : Int))

/-- `prisma.customer.findUnique(\x7bwhere: \x7bid\x7d\x7d)`. -/
def DB.findUniqueCustomer (db : DB) (id : Int) : Option Customer :=
  db.customers.find? (fun c => c.id == id)

/-- `prisma.customer.findUnique(\x7bwhere: \x7bemail\x7d\x7d)`; the lookup on the unique
index `Customer_email_key` is byte-exact (case-sensitive). -/
def DB.findUniqueCustomerByEmail (db : DB) (email : String) : Option Customer :=
  db.customers.find? (fun c => c.email == email)

/-- `prisma.customer.findFirst(\x7bwhere: \x7bemail, id: \x7bnot: id\x7d\x7d\x7d)` — the
duplicate-email lookup of the PUT handler, excluding the given customer. -/
def DB.findFirstOtherWithEmail (db : DB) (email : String) (id : Int) : Option Customer :=
  db.customers.find? (fun c => c.email == email && c.id != id)

/-- `prisma.rental.findFirst(\x7bwhere: \x7bcustomerId: id, status: 'ACTIVE'\x7d\x7d)`. -/
def DB.findFirstActiveRental (db : DB) (customerId : Int) : Option Rental :=
  db.rentals.find? (fun r => r.customerId == customerId && r.status == RentalStatus.ACTIVE)

/-- `prisma.customer.create`: the store rejects the write (Prisma error P2002,
a thrown exception) when the unique index `Customer_email_key` already holds
the email; otherwise it inserts a row with the generated `SERIAL` id and
`createdAt`/`updatedAt` set to the current clock. -/
def DB.createCustomer (db : DB) (firstName lastName email : String)
    (phone address : Option String) : Except Unit (Customer × DB) :=
  if db.customers.any (fun c => c.email == email) then
    Except.error ()
  else
    let c : Customer :=
      { id := db.nextCustomerId, firstName := firstName, lastName := lastName,
        email := email, phone := phone, address := address,
        createdAt := db.now, updatedAt := db.now }
    Except.ok (c, { db with customers := db.customers ++ [c],
                            nextCustomerId := db.nextCustomerId + 1 })

/-- `prisma.customer.update(\x7bwhere: \x7bid\x7d, data\x7d)`: throws when the row is absent
(P2025) or when the new email collides with another row on the unique index
(P2002); otherwise overwrites the five data fields and bumps `updatedAt`. -/
def DB.updateCustomer (db : DB) (id : Int) (firstName lastName email : String)
    (phone address : Option String) : Except Unit (Customer × DB) :=
  match db.customers.find? (fun c => c.id == id) with
  | none => Except.error ()
  | some old =>
    if db.customers.any (fun c => c.email == email && c.id != id) then
      Except.error ()
    else
      let c := { old with firstName := firstName, lastName := lastName,
                          email := email, phone := phone, address := address,
                          updatedAt := db.now }
      Except.ok (c, { db with customers := db.customers.map (fun x => if x.id == id then c else x) })

/-- `prisma.customer.delete(\x7bwhere: \x7bid\x7d\x7d)`: the foreign key
`Rental_customerId_fkey ... ON DELETE RESTRICT` (migration.sql) makes the store
reject the delete (P2003, a thrown exception) while any `Rental` row — of any
status — still references the customer; a missing row throws P2025. -/
def DB.deleteCustomer (db : DB) (id : Int) : Except Unit DB :=
  if db.rentals.any (fun r => r.customerId == id) then
    Except.error ()
  else if db.customers.any (fun c => c.id == id) then
    Except.ok { db with customers := db.customers.filter (fun c => c.id != id) }
  else
    Except.error ()

/-- The `POST /customers` handler: validate required fields, look up the email,
create. A store exception is caught and mapped to a 500 response, with the
store unchanged (transaction rollback). Returns the response and the store
state afterwards. -/
def POST_customers (db : DB) (data : CustomerData) : ApiResponse Customer × DB :=
  if strFalsy data.firstName || strFalsy data.lastName || strFalsy data.email then
    (ApiResponse.err 400 ("First name, last name and email are required"), db)
  else
    match db.findUniqueCustomerByEmail (data.email.getD ("")) with
    | some _ => (ApiResponse.err 400 ("A customer with this email already exists"), db)
    | none =>
      match db.createCustomer (data.firstName.getD ("")) (data.lastName.getD (""))
          (data.email.getD ("")) (orNull data.phone) (orNull data.address) with
      | Except.ok (c, db2) => (ApiResponse.ok 201 c, db2)
      | Except.error _ => (ApiResponse.err 500 ("Something went wrong"), db)

/-- Boolean lexicographic order on character lists by code point; models the
text ordering the store uses for `orderBy` on a string column. -/
def charListLe : List Char → List Char → Bool
  | [], _ => true
  | _ :: _, [] => false
  | a :: as, b :: bs =>
    if a.toNat = b.toNat then charListLe as bs
    else decide (a.toNat < b.toNat)

/-- Ordering of customers used by `orderBy: \x7blastName: 'asc'\x7d`. -/
def lastNameLe (a b : Customer) : Prop :=
  charListLe a.lastName.data b.lastName.data = true

instance : DecidableRel lastNameLe :=
  fun a b => inferInstanceAs (Decidable (_ = true))

/-- Ordering of rentals used by `orderBy: \x7bstartDate: 'desc'\x7d` (newest first). -/
def startDateDesc (a b : Rental) : Prop :=
  b.startDate ≤ a.startDate

instance : DecidableRel startDateDesc :=
  fun a b => inferInstanceAs (Decidable (_ ≤ _))

/-- Lowercasing of a string at the character level; models the
case-insensitive comparison of `mode: 'insensitive'`. -/
def lowerChars (s : String) : List Char :=
  s.data.map Char.toLower

/-- Prisma `\x7bcontains: q, mode: 'insensitive'\x7d` on a string field:
case-insensitive substring test. -/
def containsInsensitive (field : String) (q : String) : Bool :=
  decide (lowerChars q <:+: lowerChars field)

/-- The `OR` filter of the `GET /customers` handler: the query matches the
first name, last name, or email case-insensitively. -/
def matchesQuery (q : String) (c : Customer) : Bool :=
  containsInsensitive c.firstName q || containsInsensitive c.lastName q ||
    containsInsensitive c.email q

/-- The `GET /customers?q=` handler: `searchParams.get('q')` is `none` when the
parameter is absent; a falsy query (absent or empty) disables the filter; the
result is ordered by last name ascending. -/
def GET_customers (db : DB) (q : Option String) : ApiResponse (List Customer) :=
  let filtered :=
    if strFalsy q then db.customers
    else db.customers.filter (fun c => matchesQuery (q.getD ("")) c)
  ApiResponse.ok 200 (filtered.insertionSort lastNameLe)

/-- The `GET /customers/[id]` handler: parse the id, look the customer up,
return it (without rentals) or a 400/404 error. -/
def GET_customer (db : DB) (idStr : String) : ApiResponse Customer :=
  match jsParseInt idStr with
  | none => ApiResponse.err 400 ("Invalid customer ID")
  | some id =>
    match db.findUniqueCustomer id with
    | none => ApiResponse.err 404 ("Customer not found")
    | some c => ApiResponse.ok 200 c

/-- Body of the `PUT /customers/[id]` handler after the id has been parsed:
validate required fields, check existence, check the duplicate email with the
current customer excluded, then update; a store exception maps to 500. -/
def PUT_customer_core (db : DB) (id : Int) (data : CustomerData) : ApiResponse Customer × DB :=
  if strFalsy data.firstName || strFalsy data.lastName || strFalsy data.email then
    (ApiResponse.err 400 ("First name, last name and email are required"), db)
  else
    match db.findUniqueCustomer id with
    | none => (ApiResponse.err 404 ("Customer not found"), db)
    | some _ =>
      match db.findFirstOtherWithEmail (data.email.getD ("")) id with
      | some _ => (ApiResponse.err 400 ("A different customer with this email already exists"), db)
      | none =>
        match db.updateCustomer id (data.firstName.getD ("")) (data.lastName.getD (""))
            (data.email.getD ("")) (orNull data.phone) (orNull data.address) with
        | Except.ok (c, db2) => (ApiResponse.ok 200 c, db2)
        | Except.error _ => (ApiResponse.err 500 ("Something went wrong"), db)

/-- The `PUT /customers/[id]` handler: id parsing, then `PUT_customer_core`. -/
def PUT_customer (db : DB) (idStr : String) (data : CustomerData) : ApiResponse Customer × DB :=
  match jsParseInt idStr with
  | none => (ApiResponse.err 400 ("Invalid customer ID"), db)
  | some id => PUT_customer_core db id data

/-- Body of the `DELETE /customers/[id]` handler after the id has been parsed:
check existence, check the active-rental guard, then delete; a store exception
(in particular the `ON DELETE RESTRICT` foreign key) maps to 500. The `true`
body models `\x7bsuccess: true\x7d`. -/
def DELETE_customer_core (db : DB) (id : Int) : ApiResponse Bool × DB :=
  match db.findUniqueCustomer id with
  | none => (ApiResponse.err 404 ("Customer not found"), db)
  | some _ =>
    match db.findFirstActiveRental id with
    | some _ => (ApiResponse.err 400 ("Cannot delete customer with active rentals"), db)
    | none =>
      match db.deleteCustomer id with
      | Except.ok db2 => (ApiResponse.ok 200 true, db2)
      | Except.error _ => (ApiResponse.err 500 ("Something went wrong"), db)

/-- The `DELETE /customers/[id]` handler: id parsing, then `DELETE_customer_core`. -/
def DELETE_customer (db : DB) (idStr : String) : ApiResponse Bool × DB :=
  match jsParseInt idStr with
  | none => (ApiResponse.err 400 ("Invalid customer ID"), db)
  | some id => DELETE_customer_core db id

/-- The query of the `CustomerDetailsPage` server component:
`findUnique(\x7bwhere: \x7bid\x7d, include: \x7brentals: \x7binclude: \x7bcar\x7d, orderBy:
\x7bstartDate: 'desc'\x7d\x7d\x7d\x7d)`; `none` models the `notFound()` call. Each included
rental carries its car row, found through the `carId` foreign key. -/
def customerDetailsQuery (db : DB) (id : Int) :
    Option (Customer × List (Rental × Option Car)) :=
  match db.findUniqueCustomer id with
  | none => none
  | some c =>
    let rs := (db.rentals.filter (fun r => r.customerId == id)).insertionSort startDateDesc
    some (c, rs.map (fun r => (r, db.cars.find? (fun car => car.id == r.carId))))

/-- Store invariant: no two customer rows share an email (unique index
`Customer_email_key`). -/
def DB.emailsUnique (db : DB) : Prop :=
  db.customers.Pairwise (fun a b => a.email ≠ b.email)

/-- Store invariant: primary keys are unique. -/
def DB.idsUnique (db : DB) : Prop :=
  db.customers.Pairwise (fun a b => a.id ≠ b.id)

/-- Store invariant: every existing id is below the `SERIAL` counter. -/
def DB.idsFresh (db : DB) : Prop :=
  ∀ c ∈ db.customers, c.id < db.nextCustomerId

/-- Store invariant: the `Rental_carId_fkey` foreign key — each rental's car
exists. -/
def DB.rentalCarsExist (db : DB) : Prop :=
  ∀ r ∈ db.rentals, ∃ car ∈ db.cars, car.id = r.carId

/-! ### Properties of the orderings used by the handlers -/

theorem charListLe_total : ∀ a b : List Char, charListLe a b = true ∨ charListLe b a = true
  | [], _ => Or.inl rfl
  | _ :: _, [] => Or.inr rfl
  | a :: as, b :: bs => by
    by_cases h : a.toNat = b.toNat
    · have h' : b.toNat = a.toNat := h.symm
      rcases charListLe_total as bs with hl | hl
      · exact Or.inl (by simp [charListLe, h, hl])
      · exact Or.inr (by simp [charListLe, h', hl])
    · have h' : ¬ b.toNat = a.toNat := fun e => h e.symm
      rcases Nat.lt_or_ge a.toNat b.toNat with hlt | hge
      · exact Or.inl (by simp [charListLe, h, hlt])
      · have hlt : b.toNat < a.toNat := Nat.lt_of_le_of_ne hge h'
        exact Or.inr (by simp [charListLe, h', hlt])

theorem charListLe_trans : ∀ a b c : List Char,
    charListLe a b = true → charListLe b c = true → charListLe a c = true
  | [], _, _, _, _ => rfl
  | _ :: _, [], _, h, _ => by simp [charListLe] at h
  | _ :: _, _ :: _, [], _, h => by simp [charListLe] at h
  | a :: as, b :: bs, c :: cs, h1, h2 => by
    simp only [charListLe] at h1 h2 ⊢
    by_cases hab : a.toNat = b.toNat <;> by_cases hbc : b.toNat = c.toNat
    · rw [if_pos (hab.trans hbc)]
      rw [if_pos hab] at h1
      rw [if_pos hbc] at h2
      exact charListLe_trans as bs cs h1 h2
    · rw [if_pos hab] at h1
      rw [if_neg hbc] at h2
      have hac : a.toNat < c.toNat := hab ▸ of_decide_eq_true h2
      rw [if_neg (Nat.ne_of_lt hac)]
      exact decide_eq_true hac
    · rw [if_neg hab] at h1
      have hac : a.toNat < c.toNat := hbc ▸ of_decide_eq_true h1
      rw [if_neg (Nat.ne_of_lt hac)]
      exact decide_eq_true hac
    · rw [if_neg hab] at h1
      rw [if_neg hbc] at h2
      have hac : a.toNat < c.toNat :=
        Nat.lt_trans (of_decide_eq_true h1) (of_decide_eq_true h2)
      rw [if_neg (Nat.ne_of_lt hac)]
      exact decide_eq_true hac

instance : IsTotal Customer lastNameLe :=
  ⟨fun _ _ => charListLe_total _ _⟩

instance : IsTrans Customer lastNameLe :=
  ⟨fun _ _ _ => charListLe_trans _ _ _⟩

instance : IsTotal Rental startDateDesc :=
  ⟨fun a b => Nat.le_total b.startDate a.startDate⟩

instance : IsTrans Rental startDateDesc :=
  ⟨fun _ _ _ h1 h2 => Nat.le_trans h2 h1⟩

/-! ### Concrete fixture rows and states, used by witnesses and counterexamples -/

/-- Fixture customer row. -/
def adaC : Customer :=
  { id := 1, firstName := "Ada", lastName := "Lovelace",
    email := "ada@example.com", phone := none, address := none,
    createdAt := 0, updatedAt := 0 }

/-- Fixture second customer row (distinct id and email). -/
def benC : Customer :=
  { id := 2, firstName := "Ben", lastName := "Adams",
    email := "ben@example.com", phone := none, address := none,
    createdAt := 0, updatedAt := 0 }

/-- Fixture car row. -/
def carF : Car :=
  { id := 1, brand := "VW", model := "Golf", year := 2020,
    licensePlate := "B-1", color := none, mileage := 0, status := CarStatus.AVAILABLE }

/-- Fixture COMPLETED rental referencing customer 1 and car 1. -/
def rentalCompletedF : Rental :=
  { id := 1, customerId := 1, carId := 1, startDate := 3,
    endDate := some 4, startMileage := 0, endMileage := some 9, status := RentalStatus.COMPLETED }

/-- Fixture ACTIVE rental referencing customer 1 and car 1. -/
def rentalActiveF : Rental :=
  { id := 2, customerId := 1, carId := 1, startDate := 9,
    endDate := none, startMileage := 0, endMileage := none, status := RentalStatus.ACTIVE }

/-- Fixture empty store. -/
def dbEmptyF : DB :=
  { customers := [], cars := [], rentals := [], nextCustomerId := 1, now := 0 }

/-- Fixture store with one customer and no rentals. -/
def dbOneF : DB :=
  { customers := [adaC], cars := [carF], rentals := [], nextCustomerId := 2, now := 7 }

/-- Fixture store with two customers and no rentals. -/
def dbTwoF : DB :=
  { customers := [adaC, benC], cars := [carF], rentals := [], nextCustomerId := 3, now := 7 }

/-- Fixture store whose single customer has one COMPLETED rental. -/
def dbCompletedF : DB :=
  { customers := [adaC], cars := [carF], rentals := [rentalCompletedF], nextCustomerId := 2, now := 7 }

/-- Fixture store whose single customer has one COMPLETED and one ACTIVE rental. -/
def dbActiveF : DB :=
  { customers := [adaC], cars := [carF], rentals := [rentalCompletedF, rentalActiveF],
    nextCustomerId := 2, now := 7 }

/-- Fixture valid request body. -/
def adaBody : CustomerData :=
  { firstName := some ("Ada"), lastName := some ("Lovelace"),
    email := some ("ada@example.com"), phone := none, address := none }

/-! ### Claims -/

/-- C1: when the customer exists and has at least one ACTIVE rental, DELETE
fails with the ConflictError response (HTTP 400, message "Cannot delete
customer with active rentals"), the store is unchanged, and the customer is
still returned by the single-customer GET and is a member of the list
endpoint's result. -/
theorem delete_active_rental_conflict (db : DB) (id : Int) (c : Customer) (r : Rental)
    (hc : db.findUniqueCustomer id = some c)
    (hr : r ∈ db.rentals) (hcid : r.customerId = id) (hst : r.status = RentalStatus.ACTIVE) :
    DELETE_customer_core db id
        = (ApiResponse.err 400 ("Cannot delete customer with active rentals"), db)
    ∧ db.findUniqueCustomer id = some c
    ∧ ∃ body, GET_customers db none = ApiResponse.ok 200 body ∧ c ∈ body := by
  obtain ⟨r', hr'⟩ : ∃ r', db.findFirstActiveRental id = some r' := by
    rw [← Option.isSome_iff_exists, DB.findFirstActiveRental, List.find?_isSome]
    exact ⟨r, hr, by simp [hcid, hst]⟩
  refine ⟨by simp [DELETE_customer_core, hc, hr'], hc, ?_⟩
  refine ⟨db.customers.insertionSort lastNameLe, by simp [GET_customers, strFalsy], ?_⟩
  exact (List.mem_insertionSort lastNameLe).mpr (List.mem_of_find?_eq_some hc)

/-- Witness for C1 at a concrete store: customer 1 of `dbActiveF` has an
ACTIVE rental, so the delete is refused and the row stays. -/
theorem delete_active_rental_conflict_witness :
    dbActiveF.findUniqueCustomer 1 = some adaC
    ∧ rentalActiveF ∈ dbActiveF.rentals
    ∧ (DELETE_customer_core dbActiveF 1
        = (ApiResponse.err 400 ("Cannot delete customer with active rentals"), dbActiveF)
      ∧ dbActiveF.findUniqueCustomer 1 = some adaC
      ∧ ∃ body, GET_customers dbActiveF none = ApiResponse.ok 200 body ∧ adaC ∈ body) :=
  ⟨by decide, by decide,
    delete_active_rental_conflict dbActiveF 1 adaC rentalActiveF
      (by decide) (by decide) (by decide) (by decide)⟩

/-- C3: the claim (and the spec's scenario in section 8) says that deleting a
customer whose rentals are all COMPLETED/CANCELLED succeeds with 200
`\x7bsuccess:true\x7d` and removes the row. The handler's guard indeed only blocks
ACTIVE rentals, but the store's foreign key `Rental_customerId_fkey` is
declared `ON DELETE RESTRICT`, so `prisma.customer.delete` throws whenever any
rental row still references the customer; the catch block turns this into
HTTP 500 and the row remains. This theorem evaluates the code at the failing
input: one customer whose single rental is COMPLETED. -/
theorem delete_completed_rental_returns_500 :
    DELETE_customer_core dbCompletedF 1
        = (ApiResponse.err 500 ("Something went wrong"), dbCompletedF)
    ∧ dbCompletedF.findUniqueCustomer 1 = some adaC
    ∧ dbCompletedF.rentals.all (fun r => r.status != RentalStatus.ACTIVE) = true := by
  decide

/-- C8 counterexample: the path parameter "0" does not denote a positive
integer, yet the item GET does not answer 400 — `parseInt` accepts it and the
handler proceeds to the store lookup, answering 404. -/
theorem id_zero_counterexample :
    jsParseInt ("0") = some 0
    ∧ ¬ (0 : Int) > 0
    ∧ GET_customer dbEmptyF ("0") = ApiResponse.err 404 ("Customer not found")
    ∧ GET_customer dbEmptyF ("0") ≠ ApiResponse.err 400 ("Invalid customer ID") := by
  decide

theorem PUT_customer_core_ne_invalid (db : DB) (id : Int) (data : CustomerData) :
    (PUT_customer_core db id data).1 ≠ ApiResponse.err 400 ("Invalid customer ID") := by
  unfold PUT_customer_core
  split
  · simp
  · split
    · simp
    · split
      · simp
      · split
        · simp
        · simp

theorem DELETE_customer_core_ne_invalid (db : DB) (id : Int) :
    (DELETE_customer_core db id).1 ≠ ApiResponse.err 400 ("Invalid customer ID") := by
  unfold DELETE_customer_core
  split
  · simp
  · split
    · simp
    · split
      · simp
      · simp

/-- C8 (amended): each of the three item handlers answers 400 with message
"Invalid customer ID" exactly when JavaScript `parseInt` yields NaN on the
path parameter; in that case the response is produced before any store access
(the store is returned unchanged, and the response does not depend on it).
Strings that parse to a non-positive integer (such as "0" or "-1") pass the
check and reach the store lookup. -/
theorem invalid_id_rejected_iff_nan (db : DB) (idStr : String) (data : CustomerData) :
    (GET_customer db idStr = ApiResponse.err 400 ("Invalid customer ID")
        ↔ jsParseInt idStr = none)
    ∧ ((PUT_customer db idStr data).1 = ApiResponse.err 400 ("Invalid customer ID")
        ↔ jsParseInt idStr = none)
    ∧ ((DELETE_customer db idStr).1 = ApiResponse.err 400 ("Invalid customer ID")
        ↔ jsParseInt idStr = none)
    ∧ (jsParseInt idStr = none →
        (PUT_customer db idStr data).2 = db ∧ (DELETE_customer db idStr).2 = db) := by
  cases h : jsParseInt idStr with
  | none =>
    refine ⟨?_, ?_, ?_, ?_⟩ <;> simp [GET_customer, PUT_customer, DELETE_customer, h]
  | some id =>
    refine ⟨?_, ?_, ?_, by simp [h]⟩
    · simp only [GET_customer, h]
      constructor
      · intro hres
        cases hfind : db.findUniqueCustomer id <;> rw [hfind] at hres <;> simp at hres
      · intro hnone
        cases hnone
    · simp only [PUT_customer, h]
      constructor
      · intro hres
        exact absurd hres (PUT_customer_core_ne_invalid db id data)
      · intro hnone
        cases hnone
    · simp only [DELETE_customer, h]
      constructor
      · intro hres
        exact absurd hres (DELETE_customer_core_ne_invalid db id)
      · intro hnone
        cases hnone

/-- Witness for C8 (amended) at the concrete non-numeric id "abc". -/
theorem invalid_id_rejected_iff_nan_witness :
    jsParseInt ("abc") = none
    ∧ GET_customer dbOneF ("abc") = ApiResponse.err 400 ("Invalid customer ID")
    ∧ (PUT_customer dbOneF ("abc") adaBody).2 = dbOneF
    ∧ (DELETE_customer dbOneF ("abc")).2 = dbOneF :=
  ⟨by decide,
    ((invalid_id_rejected_iff_nan dbOneF ("abc") adaBody).1).mpr (by decide),
    ((invalid_id_rejected_iff_nan dbOneF ("abc") adaBody).2.2.2 (by decide)).1,
    ((invalid_id_rejected_iff_nan dbOneF ("abc") adaBody).2.2.2 (by decide)).2⟩

theorem orNull_spec (o : Option String) :
    orNull o = none ∨ ∃ s, orNull o = some s ∧ s ≠ "" := by
  match o with
  | none => exact Or.inl rfl
  | some s =>
    by_cases h : s = ""
    · exact Or.inl (by simp [orNull, h])
    · exact Or.inr ⟨s, by simp [orNull, h], h⟩

/-- C2 counterexample: the claim says the persisted phone equals the input
when supplied, null only when not supplied. A create whose body carries
`phone: ""` (supplied) persists `phone = null`, not the supplied empty
string: the handler computes `data.phone || null`. -/
theorem create_empty_phone_counterexample :
    (POST_customers dbEmptyF
          { firstName := some ("Ada"), lastName := some ("Lovelace"),
            email := some ("ada@example.com"), phone := some (""), address := none }).1
        = ApiResponse.ok 201
            { id := 1, firstName := "Ada", lastName := "Lovelace",
              email := "ada@example.com", phone := none, address := none,
              createdAt := 0, updatedAt := 0 }
    ∧ (none : Option String) ≠ some ("") := by
  decide

/-- C2 (amended): create fails with the ValidationError response when a
required field is missing or empty; with valid required fields it fails with
the ConflictError response when some customer already holds the email;
otherwise it appends exactly one new row whose firstName/lastName/email equal
the inputs, whose phone and address equal the inputs when supplied as
non-empty strings and are null when absent or supplied as the empty string,
with the generated serial id and clock timestamps, returns that record with
status 201, and the record is retrievable afterwards. -/
theorem create_spec (db : DB) (data : CustomerData) :
    ((data.firstName = none ∨ data.firstName = some ("") ∨ data.lastName = none
        ∨ data.lastName = some ("") ∨ data.email = none ∨ data.email = some ("")) →
      POST_customers db data
        = (ApiResponse.err 400 ("First name, last name and email are required"), db))
    ∧ (∀ fn ln em, data.firstName = some fn → fn ≠ "" → data.lastName = some ln → ln ≠ "" →
        data.email = some em → em ≠ "" →
        ((∃ c ∈ db.customers, c.email = em) →
          POST_customers db data
            = (ApiResponse.err 400 ("A customer with this email already exists"), db))
        ∧ ((∀ c ∈ db.customers, c.email ≠ em) →
          ∃ c db2, POST_customers db data = (ApiResponse.ok 201 c, db2)
            ∧ c.firstName = fn ∧ c.lastName = ln ∧ c.email = em
            ∧ c.phone = orNull data.phone ∧ c.address = orNull data.address
            ∧ c.id = db.nextCustomerId ∧ c.createdAt = db.now ∧ c.updatedAt = db.now
            ∧ db2.customers = db.customers ++ [c]
            ∧ (db.idsFresh → db2.findUniqueCustomer c.id = some c))) := by
  constructor
  · intro hmiss
    rcases hmiss with h | h | h | h | h | h <;> simp [POST_customers, h, strFalsy]
  · intro fn ln em hfn hfn0 hln hln0 hem hem0
    have hv : (strFalsy data.firstName || strFalsy data.lastName || strFalsy data.email) = false := by
      simp [strFalsy, hfn, hln, hem, hfn0, hln0, hem0]
    have hgetD : data.email.getD ("") = em := by simp [hem]
    constructor
    · intro hdup
      obtain ⟨c0, hc0⟩ : ∃ c0, db.findUniqueCustomerByEmail em = some c0 := by
        rw [← Option.isSome_iff_exists, DB.findUniqueCustomerByEmail, List.find?_isSome]
        obtain ⟨c0, hmem, hemail⟩ := hdup
        exact ⟨c0, hmem, by simp [hemail]⟩
      simp [POST_customers, hv, hgetD, hc0]
    · intro hfresh
      have hnone : db.findUniqueCustomerByEmail em = none := by
        rw [DB.findUniqueCustomerByEmail, List.find?_eq_none]
        intro x hx
        simp [hfresh x hx]
      have hany : db.customers.any (fun c => c.email == em) = false := by
        rw [Bool.eq_false_iff]
        intro hcon
        obtain ⟨x, hx, hxe⟩ := List.any_eq_true.mp hcon
        exact hfresh x hx (by simpa using hxe)
      have hpost : POST_customers db data =
          (ApiResponse.ok 201 { id := db.nextCustomerId, firstName := fn, lastName := ln, email := em, phone := orNull data.phone, address := orNull data.address, createdAt := db.now, updatedAt := db.now }, { db with customers := db.customers ++ [{ id := db.nextCustomerId, firstName := fn, lastName := ln, email := em, phone := orNull data.phone, address := orNull data.address, createdAt := db.now, updatedAt := db.now }], nextCustomerId := db.nextCustomerId + 1 }) := by
        simp [POST_customers, hv, hgetD, hnone, DB.createCustomer, hany, hfn, hln, hem,
          strFalsy, hfn0, hln0, hem0]
      refine ⟨_, _, hpost, rfl, rfl, rfl, rfl, rfl, rfl, rfl, rfl, rfl, ?_⟩
      intro hids
      have hold : db.customers.find? (fun x => x.id == db.nextCustomerId) = none := by
        rw [List.find?_eq_none]
        intro x hx
        have := hids x hx
        simp [Int.ne_of_lt this]
      simp [DB.findUniqueCustomer, List.find?_append, hold]

/-- Witness for C2 (amended): a concrete valid create on the empty store. -/
theorem create_spec_witness :
    ∃ c db2, POST_customers dbEmptyF adaBody = (ApiResponse.ok 201 c, db2)
      ∧ c.firstName = "Ada" ∧ c.lastName = "Lovelace" ∧ c.email = "ada@example.com"
      ∧ c.phone = orNull adaBody.phone ∧ c.address = orNull adaBody.address
      ∧ c.id = dbEmptyF.nextCustomerId ∧ c.createdAt = dbEmptyF.now ∧ c.updatedAt = dbEmptyF.now
      ∧ db2.customers = dbEmptyF.customers ++ [c]
      ∧ (dbEmptyF.idsFresh → db2.findUniqueCustomer c.id = some c) :=
  ((create_spec dbEmptyF adaBody).2 ("Ada") ("Lovelace") ("ada@example.com")
    rfl (by decide) rfl (by decide) rfl (by decide)).2 (by decide)

/-- C5 counterexample: the claim says a successful update overwrites the
fields with the supplied values, clearing to null only the fields not
supplied. An update whose body carries `address: ""` (supplied) succeeds and
stores `address = null`, not the supplied empty string. -/
theorem update_empty_address_counterexample :
    (PUT_customer_core dbOneF 1
          { firstName := some ("Ada"), lastName := some ("Lovelace"),
            email := some ("ada@example.com"), phone := none, address := some ("") }).1
        = ApiResponse.ok 200
            { id := 1, firstName := "Ada", lastName := "Lovelace",
              email := "ada@example.com", phone := none, address := none,
              createdAt := 0, updatedAt := 7 }
    ∧ (none : Option String) ≠ some ("") := by
  decide

/-- Helper: exact result of a PUT whose required fields are valid, whose
customer exists and whose email is held by no other customer. -/
theorem PUT_core_success (db : DB) (id : Int) (data : CustomerData)
    (old : Customer) (fn ln em : String)
    (hfn : data.firstName = some fn) (hfn0 : fn ≠ "")
    (hln : data.lastName = some ln) (hln0 : ln ≠ "")
    (hem : data.email = some em) (hem0 : em ≠ "")
    (hold : db.findUniqueCustomer id = some old)
    (hnodup : ∀ c' ∈ db.customers, c'.id ≠ id → c'.email ≠ em) :
    PUT_customer_core db id data =
      (ApiResponse.ok 200 { old with firstName := fn, lastName := ln, email := em, phone := orNull data.phone, address := orNull data.address, updatedAt := db.now }, { db with customers := db.customers.map (fun x => if x.id == id then { old with firstName := fn, lastName := ln, email := em, phone := orNull data.phone, address := orNull data.address, updatedAt := db.now } else x) }) := by
  have hv : (strFalsy data.firstName || strFalsy data.lastName || strFalsy data.email) = false := by
    simp [strFalsy, hfn, hln, hem, hfn0, hln0, hem0]
  have hgetD : data.email.getD ("") = em := by simp [hem]
  have hpred : ∀ c' ∈ db.customers, ¬ (c'.email == em && c'.id != id) = true := by
    intro c' hmem hcon
    simp only [Bool.and_eq_true, beq_iff_eq, bne_iff_ne] at hcon
    exact hnodup c' hmem hcon.2 hcon.1
  have hother : db.findFirstOtherWithEmail em id = none := by
    rw [DB.findFirstOtherWithEmail, List.find?_eq_none]
    exact hpred
  have hany : db.customers.any (fun c' => c'.email == em && c'.id != id) = false := by
    rw [Bool.eq_false_iff]
    intro hcon
    obtain ⟨x, hx, hxe⟩ := List.any_eq_true.mp hcon
    exact hpred x hx hxe
  have hold' : db.customers.find? (fun c' => c'.id == id) = some old := hold
  simp [PUT_customer_core, hv, hold, hgetD, hother, DB.updateCustomer, hold', hany,
    hfn, hln, hem, strFalsy, hfn0, hln0, hem0]

/-- C5 (amended): a successful update overwrites all five data fields of the
stored row: firstName/lastName/email become the inputs, and phone/address
become the inputs when supplied as non-empty strings and null when absent or
supplied as the empty string — never left at their previous values; the
updated record is returned and is exactly what replaces the row in the
store. -/
theorem update_overwrites_all_fields (db : DB) (id : Int) (data : CustomerData)
    (old : Customer) (fn ln em : String)
    (hfn : data.firstName = some fn) (hfn0 : fn ≠ "")
    (hln : data.lastName = some ln) (hln0 : ln ≠ "")
    (hem : data.email = some em) (hem0 : em ≠ "")
    (hold : db.findUniqueCustomer id = some old)
    (hnodup : ∀ c' ∈ db.customers, c'.id ≠ id → c'.email ≠ em) :
    ∃ c' db2, PUT_customer_core db id data = (ApiResponse.ok 200 c', db2)
      ∧ c'.firstName = fn ∧ c'.lastName = ln ∧ c'.email = em
      ∧ c'.phone = orNull data.phone ∧ c'.address = orNull data.address
      ∧ c'.id = old.id ∧ c'.createdAt = old.createdAt ∧ c'.updatedAt = db.now
      ∧ db2.customers = db.customers.map (fun x => if x.id == id then c' else x) :=
  ⟨_, _, PUT_core_success db id data old fn ln em hfn hfn0 hln hln0 hem hem0 hold hnodup,
    rfl, rfl, rfl, rfl, rfl, rfl, rfl, rfl, rfl⟩

/-- Witness for C5 (amended): a concrete valid update of customer 1. -/
theorem update_overwrites_all_fields_witness :
    ∃ c' db2, PUT_customer_core dbOneF 1
        { firstName := some ("Ada"), lastName := some ("King"),
          email := some ("ada@king.dev"), phone := some ("123"), address := none }
        = (ApiResponse.ok 200 c', db2)
      ∧ c'.firstName = "Ada" ∧ c'.lastName = "King" ∧ c'.email = "ada@king.dev"
      ∧ c'.phone = orNull (some ("123")) ∧ c'.address = orNull none
      ∧ c'.id = adaC.id ∧ c'.createdAt = adaC.createdAt ∧ c'.updatedAt = dbOneF.now
      ∧ db2.customers = dbOneF.customers.map (fun x => if x.id == 1 then c' else x) :=
  update_overwrites_all_fields dbOneF 1
    { firstName := some ("Ada"), lastName := some ("King"),
      email := some ("ada@king.dev"), phone := some ("123"), address := none }
    adaC ("Ada") ("King") ("ada@king.dev") rfl (by decide) rfl (by decide) rfl (by decide)
    (by decide) (by decide)

/-- C10: every Customer row written by a successful create or update carries a
phone and an address that are each either null or a non-empty string: the
handlers coerce an empty-string input to null (`x || null`) before the write.
The written record is the returned one and is a member of the resulting
store. -/
theorem optional_fields_never_empty (db : DB) (data : CustomerData) :
    (∀ st c db2, POST_customers db data = (ApiResponse.ok st c, db2) →
        ((c.phone = none ∨ ∃ s, c.phone = some s ∧ s ≠ "")
          ∧ (c.address = none ∨ ∃ s, c.address = some s ∧ s ≠ "")
          ∧ c ∈ db2.customers))
    ∧ (∀ id st c db2, PUT_customer_core db id data = (ApiResponse.ok st c, db2) →
        ((c.phone = none ∨ ∃ s, c.phone = some s ∧ s ≠ "")
          ∧ (c.address = none ∨ ∃ s, c.address = some s ∧ s ≠ "")
          ∧ c ∈ db2.customers)) := by
  constructor
  · intro st c db2 h
    by_cases hval : (strFalsy data.firstName || strFalsy data.lastName || strFalsy data.email) = true
    · simp [POST_customers, hval] at h
    · cases hfind : db.findUniqueCustomerByEmail (data.email.getD ("")) with
      | some c0 => simp [POST_customers, hval, hfind] at h
      | none =>
        cases hcr : db.customers.any (fun x => x.email == data.email.getD ("")) with
        | true => simp [POST_customers, hval, hfind, DB.createCustomer, hcr] at h
        | false =>
          simp only [POST_customers, hval, hfind, DB.createCustomer, hcr] at h
          rw [if_neg (by simp [hval]), if_neg (by simp [hcr])] at h
          injection h with h1 h2
          injection h1 with hst hc
          subst hc
          subst h2
          refine ⟨orNull_spec data.phone, orNull_spec data.address, ?_⟩
          simp
  · intro id st c db2 h
    by_cases hval : (strFalsy data.firstName || strFalsy data.lastName || strFalsy data.email) = true
    · simp [PUT_customer_core, hval] at h
    · cases hfind : db.findUniqueCustomer id with
      | none => simp [PUT_customer_core, hval, hfind] at h
      | some old =>
        cases hother : db.findFirstOtherWithEmail (data.email.getD ("")) id with
        | some c0 => simp [PUT_customer_core, hval, hfind, hother] at h
        | none =>
          have hfind' : db.customers.find? (fun c' => c'.id == id) = some old := hfind
          cases hany : db.customers.any
              (fun c' => c'.email == data.email.getD ("") && c'.id != id) with
          | true =>
            simp [PUT_customer_core, hval, hfind, hother, DB.updateCustomer, hfind', hany] at h
          | false =>
            simp only [PUT_customer_core, hval, hfind, hother, DB.updateCustomer, hfind'] at h
            rw [if_neg (by simp [hval]), if_neg (by simp [hany])] at h
            injection h with h1 h2
            injection h1 with hst hc
            subst hc
            subst h2
            refine ⟨orNull_spec data.phone, orNull_spec data.address, ?_⟩
            simp only [List.mem_map]
            refine ⟨old, List.mem_of_find?_eq_some hfind', ?_⟩
            simp [List.find?_some hfind']

/-- Witness for C10 at a concrete create whose body supplies an empty phone. -/
theorem optional_fields_never_empty_witness :
    (POST_customers dbEmptyF
        { firstName := some ("Ada"), lastName := some ("Lovelace"),
          email := some ("a@b.c"), phone := some (""), address := some ("Berlin") }).1
      = ApiResponse.ok 201
          { id := 1, firstName := "Ada", lastName := "Lovelace", email := "a@b.c",
            phone := none, address := some ("Berlin"), createdAt := 0, updatedAt := 0 }
    ∧ (((none : Option String) = none ∨ ∃ s, (none : Option String) = some s ∧ s ≠ "")
        ∧ ((some ("Berlin") : Option String) = none ∨ ∃ s, (some ("Berlin") : Option String) = some s ∧ s ≠ "")
        ∧ { id := 1, firstName := "Ada", lastName := "Lovelace", email := "a@b.c",
            phone := none, address := some ("Berlin"), createdAt := 0, updatedAt := 0 }
          ∈ (POST_customers dbEmptyF
              { firstName := some ("Ada"), lastName := some ("Lovelace"),
                email := some ("a@b.c"), phone := some (""), address := some ("Berlin") }).2.customers) :=
  ⟨by decide,
    (optional_fields_never_empty dbEmptyF
        { firstName := some ("Ada"), lastName := some ("Lovelace"),
          email := some ("a@b.c"), phone := some (""), address := some ("Berlin") }).1
      201
      { id := 1, firstName := "Ada", lastName := "Lovelace", email := "a@b.c",
        phone := none, address := some ("Berlin"), createdAt := 0, updatedAt := 0 }
      (POST_customers dbEmptyF
        { firstName := some ("Ada"), lastName := some ("Lovelace"),
          email := some ("a@b.c"), phone := some (""), address := some ("Berlin") }).2
      (by decide)⟩

/-- C4: with valid required fields on an existing customer, the update's
duplicate-email lookup excludes the customer being updated: the PUT answers
the ConflictError response exactly when some other customer (different id)
holds the new email; when no other customer holds it the update succeeds, and
in particular updating a customer to its own current email always succeeds
(given the store's email-uniqueness invariant). -/
theorem update_email_check_excludes_self (db : DB) (id : Int) (data : CustomerData)
    (c : Customer) (fn ln em : String)
    (hfn : data.firstName = some fn) (hfn0 : fn ≠ "")
    (hln : data.lastName = some ln) (hln0 : ln ≠ "")
    (hem : data.email = some em) (hem0 : em ≠ "")
    (hc : db.findUniqueCustomer id = some c) :
    ((PUT_customer_core db id data).1
        = ApiResponse.err 400 ("A different customer with this email already exists")
      ↔ ∃ c' ∈ db.customers, c'.id ≠ id ∧ c'.email = em)
    ∧ ((∀ c' ∈ db.customers, c'.id ≠ id → c'.email ≠ em) →
        ∃ c' db2, PUT_customer_core db id data = (ApiResponse.ok 200 c', db2))
    ∧ (c.email = em → db.emailsUnique →
        ∃ c' db2, PUT_customer_core db id data = (ApiResponse.ok 200 c', db2)) := by
  have hv : (strFalsy data.firstName || strFalsy data.lastName || strFalsy data.email) = false := by
    simp [strFalsy, hfn, hln, hem, hfn0, hln0, hem0]
  have hgetD : data.email.getD ("") = em := by simp [hem]
  have hsucc : (∀ c' ∈ db.customers, c'.id ≠ id → c'.email ≠ em) →
      ∃ c' db2, PUT_customer_core db id data = (ApiResponse.ok 200 c', db2) := by
    intro hnodup
    exact ⟨_, _, PUT_core_success db id data c fn ln em hfn hfn0 hln hln0 hem hem0 hc hnodup⟩
  refine ⟨?_, hsucc, ?_⟩
  · constructor
    · intro hres
      cases hother : db.findFirstOtherWithEmail em id with
      | some c2 =>
        have hp := List.find?_some hother
        simp only [Bool.and_eq_true, beq_iff_eq, bne_iff_ne] at hp
        exact ⟨c2, List.mem_of_find?_eq_some hother, hp.2, hp.1⟩
      | none =>
        have hnodup : ∀ c' ∈ db.customers, c'.id ≠ id → c'.email ≠ em := by
          intro c' hmem hid hemail
          rw [DB.findFirstOtherWithEmail, List.find?_eq_none] at hother
          exact hother c' hmem (by simp [hemail, hid])
        obtain ⟨c', db2, hput⟩ := hsucc hnodup
        rw [hput] at hres
        simp at hres
    · rintro ⟨c2, hmem, hne, hemail⟩
      obtain ⟨c0, hc0⟩ : ∃ c0, db.findFirstOtherWithEmail em id = some c0 := by
        rw [← Option.isSome_iff_exists, DB.findFirstOtherWithEmail, List.find?_isSome]
        exact ⟨c2, hmem, by simp [hemail, hne]⟩
      simp [PUT_customer_core, hv, hc, hgetD, hc0]
  · intro hemc huniq
    refine hsucc ?_
    intro c' hmem hid hemail
    have hcin : c ∈ db.customers := List.mem_of_find?_eq_some hc
    have hcid : c.id = id := by simpa using List.find?_some hc
    have hne : c' ≠ c := fun he => hid (by rw [he, hcid])
    have hdiff : c'.email ≠ c.email := by
      rw [DB.emailsUnique] at huniq
      exact (List.Pairwise.forall (fun _ _ h => h.symm) huniq) hmem hcin hne
    exact hdiff (by rw [hemail, hemc])

/-- Witness for C4 at a concrete store with two customers: updating customer 1
to its own email succeeds, and the conflict condition is characterised. -/
theorem update_email_check_excludes_self_witness :
    ((PUT_customer_core dbTwoF 1 adaBody).1
        = ApiResponse.err 400 ("A different customer with this email already exists")
      ↔ ∃ c' ∈ dbTwoF.customers, c'.id ≠ 1 ∧ c'.email = "ada@example.com")
    ∧ ∃ c' db2, PUT_customer_core dbTwoF 1 adaBody = (ApiResponse.ok 200 c', db2) :=
  ⟨(update_email_check_excludes_self dbTwoF 1 adaBody adaC ("Ada") ("Lovelace") ("ada@example.com")
      rfl (by decide) rfl (by decide) rfl (by decide) (by decide)).1,
    (update_email_check_excludes_self dbTwoF 1 adaBody adaC ("Ada") ("Lovelace") ("ada@example.com")
      rfl (by decide) rfl (by decide) rfl (by decide) (by decide)).2.2 (by decide)
      (by simp [DB.emailsUnique, dbTwoF, adaC, benC])⟩

/-- C6: the customer-details query answers not-found exactly when no customer
with the id exists; otherwise it returns the customer record together with
exactly that customer's rentals (as a permutation of the store's rows for the
id), ordered by start date descending, each rental joined with its Car row
(under the store's foreign-key invariant). -/
theorem customer_details_spec (db : DB) (id : Int) :
    (customerDetailsQuery db id = none ↔ db.findUniqueCustomer id = none)
    ∧ (∀ c pairs, customerDetailsQuery db id = some (c, pairs) →
        db.findUniqueCustomer id = some c
        ∧ (pairs.map Prod.fst).Perm (db.rentals.filter (fun r => r.customerId == id))
        ∧ List.Sorted startDateDesc (pairs.map Prod.fst)
        ∧ (db.rentalCarsExist →
            ∀ p ∈ pairs, ∃ car, p.2 = some car ∧ car.id = p.1.carId)) := by
  constructor
  · cases hfind : db.findUniqueCustomer id with
    | none => simp [customerDetailsQuery, hfind]
    | some c0 => simp [customerDetailsQuery, hfind]
  · intro c pairs h
    cases hfind : db.findUniqueCustomer id with
    | none => simp [customerDetailsQuery, hfind] at h
    | some c0 =>
      simp only [customerDetailsQuery, hfind, Option.some.injEq, Prod.mk.injEq] at h
      obtain ⟨hc, hpairs⟩ := h
      subst hc
      have hmap : pairs.map Prod.fst
          = (db.rentals.filter (fun r => r.customerId == id)).insertionSort startDateDesc := by
        rw [← hpairs, List.map_map]
        exact List.map_id' _
      refine ⟨by simp [hfind], ?_, ?_, ?_⟩
      · rw [hmap]
        exact List.perm_insertionSort _ _
      · rw [hmap]
        exact List.sorted_insertionSort _ _
      · intro hfk p hp
        rw [← hpairs] at hp
        obtain ⟨r, hr, hpr⟩ := List.mem_map.mp hp
        have hp1 : p.1 = r := by rw [← hpr]
        have hp2 : p.2 = db.cars.find? (fun x => x.id == r.carId) := by rw [← hpr]
        have hrmem : r ∈ db.rentals :=
          (List.mem_filter.mp ((List.mem_insertionSort startDateDesc).mp hr)).1
        obtain ⟨car, hcarmem, hcarid⟩ := hfk r hrmem
        obtain ⟨car0, hcar0⟩ : ∃ car0, db.cars.find? (fun x => x.id == r.carId) = some car0 := by
          rw [← Option.isSome_iff_exists, List.find?_isSome]
          exact ⟨car, hcarmem, by simp [hcarid]⟩
        refine ⟨car0, by rw [hp2, hcar0], ?_⟩
        rw [hp1]
        simpa using List.find?_some hcar0

/-- Witness for C6 at a concrete store: customer 1 with a COMPLETED and an
ACTIVE rental; the details list is newest-first and joined with the car. -/
theorem customer_details_spec_witness :
    dbActiveF.findUniqueCustomer 1 = some adaC
    ∧ (([(rentalActiveF, some carF), (rentalCompletedF, some carF)].map Prod.fst).Perm
        (dbActiveF.rentals.filter (fun r => r.customerId == 1)))
    ∧ List.Sorted startDateDesc
        ([(rentalActiveF, some carF), (rentalCompletedF, some carF)].map Prod.fst)
    ∧ (dbActiveF.rentalCarsExist →
        ∀ p ∈ [(rentalActiveF, some carF), (rentalCompletedF, some carF)],
          ∃ car, p.2 = some car ∧ car.id = p.1.carId) :=
  (customer_details_spec dbActiveF 1).2 adaC
    [(rentalActiveF, some carF), (rentalCompletedF, some carF)] (by decide)

/-- C7: listing with an absent or empty query returns all customers; a
non-empty query returns exactly the customers it matches case-insensitively on
first name, last name or email; both results are ordered by last name
ascending. -/
theorem list_customers_spec (db : DB) :
    GET_customers db (some ("")) = GET_customers db none
    ∧ (∃ body, GET_customers db none = ApiResponse.ok 200 body
        ∧ body.Perm db.customers ∧ List.Sorted lastNameLe body)
    ∧ (∀ q, q ≠ "" → ∃ body, GET_customers db (some q) = ApiResponse.ok 200 body
        ∧ (∀ c, c ∈ body ↔ c ∈ db.customers ∧ matchesQuery q c = true)
        ∧ List.Sorted lastNameLe body) := by
  refine ⟨rfl, ?_, ?_⟩
  · refine ⟨db.customers.insertionSort lastNameLe, rfl, ?_, ?_⟩
    · exact List.perm_insertionSort _ _
    · exact List.sorted_insertionSort _ _
  · intro q hq
    have hfq : strFalsy (some q) = false := by simp [strFalsy, hq]
    refine ⟨(db.customers.filter (fun c => matchesQuery q c)).insertionSort lastNameLe, ?_, ?_, ?_⟩
    · simp [GET_customers, hfq]
    · intro c
      rw [List.mem_insertionSort, List.mem_filter]
    · exact List.sorted_insertionSort _ _

/-- Witness for C7 at a concrete store and the concrete query "love". -/
theorem list_customers_spec_witness :
    ∃ body, GET_customers dbTwoF (some ("love")) = ApiResponse.ok 200 body
      ∧ (∀ c, c ∈ body ↔ c ∈ dbTwoF.customers ∧ matchesQuery ("love") c = true)
      ∧ List.Sorted lastNameLe body :=
  (list_customers_spec dbTwoF).2.2 ("love") (by decide)

/-! ### Interleaving model for two concurrent create requests

The POST handler awaits the store twice: once for the uniqueness lookup and
once for the write. Between the two awaits another request can run. A request
is therefore modelled as a small state machine with those two steps; an
interleaving is a schedule telling which request performs its next step. -/

/-- An in-flight POST /customers request: it has not yet issued its uniqueness
lookup, has received the lookup's answer, or has finished with a response. -/
inductive CreateProc where
  | start (data : CustomerData)
  | checked (data : CustomerData) (dup : Bool)
  | done (res : ApiResponse Customer)
deriving DecidableEq, Repr

/-- One step of an in-flight create request. The first step runs the handler's
validation and its uniqueness lookup; the second consumes the lookup's answer
(duplicate → the handler's 400) or runs the store write — which the unique
index `Customer_email_key` may still reject, mapped to 500 by the handler's
catch block. A finished request is unchanged. -/
def stepCreate (db : DB) (p : CreateProc) : DB × CreateProc :=
  match p with
  | CreateProc.start data =>
    if strFalsy data.firstName || strFalsy data.lastName || strFalsy data.email then
      (db, CreateProc.done (ApiResponse.err 400 ("First name, last name and email are required")))
    else
      (db, CreateProc.checked data (db.findUniqueCustomerByEmail (data.email.getD (""))).isSome)
  | CreateProc.checked data dup =>
    if dup then
      (db, CreateProc.done (ApiResponse.err 400 ("A customer with this email already exists")))
    else
      match db.createCustomer (data.firstName.getD ("")) (data.lastName.getD (""))
          (data.email.getD ("")) (orNull data.phone) (orNull data.address) with
      | Except.ok (c, db2) => (db2, CreateProc.done (ApiResponse.ok 201 c))
      | Except.error _ => (db, CreateProc.done (ApiResponse.err 500 ("Something went wrong")))
  | CreateProc.done res => (db, CreateProc.done res)

/-- Two concurrent create requests over one store. -/
structure ConcCfg where
  db : DB
  pA : CreateProc
  pB : CreateProc
deriving DecidableEq, Repr

/-- Run one step of the chosen request (`false` steps A, `true` steps B). -/
def stepCfg (cfg : ConcCfg) (side : Bool) : ConcCfg :=
  if side then
    { cfg with db := (stepCreate cfg.db cfg.pB).1, pB := (stepCreate cfg.db cfg.pB).2 }
  else
    { cfg with db := (stepCreate cfg.db cfg.pA).1, pA := (stepCreate cfg.db cfg.pA).2 }

/-- Run an interleaving schedule. -/
def runSchedule (sched : List Bool) (cfg : ConcCfg) : ConcCfg :=
  sched.foldl stepCfg cfg

/-- Number of customer rows holding the email `e`. -/
def emailCount (db : DB) (e : String) : Nat :=
  db.customers.countP (fun c => c.email == e)

/-- Whether a request has finished. -/
def isDone : CreateProc → Bool
  | CreateProc.done _ => true
  | _ => false

/-- Whether a request has finished successfully (201 with a created row). -/
def isCreated : CreateProc → Bool
  | CreateProc.done (ApiResponse.ok _ _) => true
  | _ => false

/-- A request body whose required fields are valid and whose email is `e`. -/
def validBodyWithEmail (data : CustomerData) (e : String) : Prop :=
  (∃ s, data.firstName = some s ∧ s ≠ "") ∧ (∃ s, data.lastName = some s ∧ s ≠ "")
    ∧ data.email = some e ∧ e ≠ ""

/-- Invariant of one in-flight request with body email `e`: a positive
duplicate answer, and any failure response, certify that a row with `e` is
already present; a success carries the created row. -/
def procInv (db : DB) (e : String) (p : CreateProc) : Prop :=
  match p with
  | CreateProc.start data => validBodyWithEmail data e
  | CreateProc.checked data dup =>
      validBodyWithEmail data e ∧ (dup = true → 1 ≤ emailCount db e)
  | CreateProc.done res =>
      (∃ c, res = ApiResponse.ok 201 c ∧ c.email = e)
      ∨ ((res = ApiResponse.err 400 ("A customer with this email already exists")
            ∨ res = ApiResponse.err 500 ("Something went wrong"))
          ∧ 1 ≤ emailCount db e)

/-- Global invariant of the interleaved execution: the store holds exactly as
many rows with `e` as there are successfully finished requests, and never more
than one. -/
def concInv (e : String) (cfg : ConcCfg) : Prop :=
  emailCount cfg.db e
      = (if isCreated cfg.pA then 1 else 0) + (if isCreated cfg.pB then 1 else 0)
    ∧ emailCount cfg.db e ≤ 1
    ∧ procInv cfg.db e cfg.pA ∧ procInv cfg.db e cfg.pB

theorem procInv_mono (db db2 : DB) (e : String) (q : CreateProc)
    (hmono : emailCount db e ≤ emailCount db2 e) (hq : procInv db e q) :
    procInv db2 e q := by
  cases q with
  | start data => exact hq
  | checked data dup => exact ⟨hq.1, fun hd => Nat.le_trans (hq.2 hd) hmono⟩
  | done res =>
    rcases hq with hok | ⟨hres, hcnt⟩
    · exact Or.inl hok
    · exact Or.inr ⟨hres, Nat.le_trans hcnt hmono⟩

theorem stepCreate_inv (db : DB) (e : String) (p q : CreateProc)
    (hp : procInv db e p) (hq : procInv db e q)
    (hsum : emailCount db e
      = (if isCreated p then 1 else 0) + (if isCreated q then 1 else 0))
    (hle : emailCount db e ≤ 1) :
    emailCount (stepCreate db p).1 e
      = (if isCreated (stepCreate db p).2 then 1 else 0) + (if isCreated q then 1 else 0)
    ∧ emailCount (stepCreate db p).1 e ≤ 1
    ∧ procInv (stepCreate db p).1 e (stepCreate db p).2
    ∧ procInv (stepCreate db p).1 e q := by
  cases p with
  | start data =>
    obtain ⟨⟨fn, hfn, hfn0⟩, ⟨ln, hln, hln0⟩, hem, he0⟩ := hp
    have hval : (strFalsy data.firstName || strFalsy data.lastName || strFalsy data.email)
        = false := by
      simp [strFalsy, hfn, hln, hem, hfn0, hln0, he0]
    have hstep : stepCreate db (CreateProc.start data)
        = (db, CreateProc.checked data (db.findUniqueCustomerByEmail (data.email.getD (""))).isSome) := by
      simp [stepCreate, hval]
    rw [hstep]
    refine ⟨by simpa [isCreated] using hsum, hle,
      ⟨⟨⟨fn, hfn, hfn0⟩, ⟨ln, hln, hln0⟩, hem, he0⟩, ?_⟩, hq⟩
    intro hdup
    have hex : ∃ x ∈ db.customers, (x.email == e) = true := by
      simpa [DB.findUniqueCustomerByEmail, List.find?_isSome, hem] using hdup
    rw [emailCount]
    exact List.countP_pos_iff.mpr hex
  | checked data dup =>
    obtain ⟨⟨⟨fn, hfn, hfn0⟩, ⟨ln, hln, hln0⟩, hem, he0⟩, hdupc⟩ := hp
    cases dup with
    | true =>
      have hstep : stepCreate db (CreateProc.checked data true)
          = (db, CreateProc.done
              (ApiResponse.err 400 ("A customer with this email already exists"))) := by
        simp [stepCreate]
      rw [hstep]
      exact ⟨by simpa [isCreated] using hsum, hle, Or.inr ⟨Or.inl rfl, hdupc rfl⟩, hq⟩
    | false =>
      cases hcr : db.customers.any (fun c => c.email == data.email.getD ("")) with
      | true =>
        have hstep : stepCreate db (CreateProc.checked data false)
            = (db, CreateProc.done (ApiResponse.err 500 ("Something went wrong"))) := by
          simp [stepCreate, DB.createCustomer, hcr]
        rw [hstep]
        have hpos : 1 ≤ emailCount db e := by
          rw [emailCount]
          apply List.countP_pos_iff.mpr
          obtain ⟨x, hx, hxe⟩ := List.any_eq_true.mp hcr
          exact ⟨x, hx, by simpa [hem] using hxe⟩
        exact ⟨by simpa [isCreated] using hsum, hle, Or.inr ⟨Or.inr rfl, hpos⟩, hq⟩
      | false =>
        have hstep : stepCreate db (CreateProc.checked data false)
            = ({ db with customers := db.customers ++ [{ id := db.nextCustomerId, firstName := data.firstName.getD (""), lastName := data.lastName.getD (""), email := data.email.getD (""), phone := orNull data.phone, address := orNull data.address, createdAt := db.now, updatedAt := db.now }], nextCustomerId := db.nextCustomerId + 1 }, CreateProc.done (ApiResponse.ok 201 { id := db.nextCustomerId, firstName := data.firstName.getD (""), lastName := data.lastName.getD (""), email := data.email.getD (""), phone := orNull data.phone, address := orNull data.address, createdAt := db.now, updatedAt := db.now })) := by
          simp [stepCreate, DB.createCustomer, hcr]
        have hzero : emailCount db e = 0 := by
          rw [emailCount, List.countP_eq_zero]
          intro a ha hae
          have hbad : db.customers.any (fun c => c.email == data.email.getD ("")) = true :=
            List.any_eq_true.mpr ⟨a, ha, by simpa [hem] using hae⟩
          rw [hcr] at hbad
          cases hbad
        have hcnt2 : emailCount (stepCreate db (CreateProc.checked data false)).1 e = 1 := by
          rw [hstep]
          have : emailCount db e + 1 = 1 := by rw [hzero]
          simpa [emailCount, List.countP_append, List.countP_cons, hem] using this
        have hqz : (if isCreated q then 1 else 0) = 0 := by
          have hs := hsum
          simp only [isCreated, hzero] at hs
          omega
        rw [hstep] at hcnt2 ⊢
        refine ⟨?_, ?_, ?_, ?_⟩
        · rw [hcnt2, hqz]
          simp [isCreated]
        · rw [hcnt2]
        · exact Or.inl ⟨_, rfl, by simp [hem]⟩
        · apply procInv_mono db _ e q _ hq
          rw [hcnt2, hzero]
          exact Nat.zero_le 1
  | done res =>
    exact ⟨hsum, hle, hp, hq⟩

theorem stepCfg_inv (e : String) (cfg : ConcCfg) (side : Bool)
    (h : concInv e cfg) : concInv e (stepCfg cfg side) := by
  obtain ⟨hsum, hle, hpA, hpB⟩ := h
  cases side with
  | false =>
    obtain ⟨h1, h2, h3, h4⟩ := stepCreate_inv cfg.db e cfg.pA cfg.pB hpA hpB hsum hle
    exact ⟨h1, h2, h3, h4⟩
  | true =>
    obtain ⟨h1, h2, h3, h4⟩ := stepCreate_inv cfg.db e cfg.pB cfg.pA hpB hpA
      (by rw [hsum, Nat.add_comm]) hle
    refine ⟨?_, h2, h4, h3⟩
    show emailCount (stepCreate cfg.db cfg.pB).1 e
      = (if isCreated cfg.pA then 1 else 0)
        + (if isCreated (stepCreate cfg.db cfg.pB).2 then 1 else 0)
    exact h1.trans (Nat.add_comm _ _)

theorem runSchedule_inv (e : String) (sched : List Bool) (cfg : ConcCfg)
    (h : concInv e cfg) : concInv e (runSchedule sched cfg) := by
  induction sched generalizing cfg with
  | nil => exact h
  | cons side rest ih => exact ih (stepCfg cfg side) (stepCfg_inv e cfg side h)

/-- C9 counterexample: from an empty store, two concurrent creates with the
byte-identical email "ada@example.com", interleaved as A-check, B-check,
A-write, B-write, do NOT yield one success and one ConflictError: request A
succeeds, but request B — whose uniqueness check also passed — is rejected by
the store's unique index at write time, and the handler's catch block answers
500 "Something went wrong", which is not the ConflictError response. -/
theorem concurrent_create_counterexample :
    (runSchedule [false, true, false, true]
        { db := dbEmptyF, pA := CreateProc.start adaBody, pB := CreateProc.start adaBody }).pB
      = CreateProc.done (ApiResponse.err 500 ("Something went wrong"))
    ∧ isCreated (runSchedule [false, true, false, true]
        { db := dbEmptyF, pA := CreateProc.start adaBody, pB := CreateProc.start adaBody }).pA
      = true
    ∧ (ApiResponse.err 500 ("Something went wrong") : ApiResponse Customer)
      ≠ ApiResponse.err 400 ("A customer with this email already exists") := by
  decide

/-- C9 (amended): for every interleaving of two concurrent creates carrying
valid bodies with the same byte-identical email `e`, starting from a store
without `e`: when both requests have finished, the store holds exactly one row
with email `e` (never two), exactly one request succeeded, and the other
failed with either the ConflictError response (400, duplicate email — when its
check saw the winner's row) or the 500 response (when its check passed before
the winner's write and the unique index rejected its own write). -/
theorem concurrent_create_one_success (db : DB) (dataA dataB : CustomerData) (e : String)
    (sched : List Bool) (final : ConcCfg)
    (hA : validBodyWithEmail dataA e) (hB : validBodyWithEmail dataB e)
    (h0 : emailCount db e = 0)
    (hrun : runSchedule sched
        { db := db, pA := CreateProc.start dataA, pB := CreateProc.start dataB } = final)
    (hdoneA : isDone final.pA = true) (hdoneB : isDone final.pB = true) :
    emailCount final.db e = 1
    ∧ ((isCreated final.pA = true ∧ isCreated final.pB = false)
        ∨ (isCreated final.pA = false ∧ isCreated final.pB = true))
    ∧ (∀ res, final.pA = CreateProc.done res → isCreated final.pA = false →
        res = ApiResponse.err 400 ("A customer with this email already exists")
        ∨ res = ApiResponse.err 500 ("Something went wrong"))
    ∧ (∀ res, final.pB = CreateProc.done res → isCreated final.pB = false →
        res = ApiResponse.err 400 ("A customer with this email already exists")
        ∨ res = ApiResponse.err 500 ("Something went wrong")) := by
  have hinv : concInv e final := by
    rw [← hrun]
    apply runSchedule_inv
    exact ⟨by simpa [isCreated] using h0, by rw [h0]; exact Nat.zero_le 1, hA, hB⟩
  obtain ⟨hsum, hle, hpA, hpB⟩ := hinv
  cases hfa : final.pA with
  | start d => rw [hfa] at hdoneA; cases hdoneA
  | checked d b => rw [hfa] at hdoneA; cases hdoneA
  | done resA =>
    cases hfb : final.pB with
    | start d => rw [hfb] at hdoneB; cases hdoneB
    | checked d b => rw [hfb] at hdoneB; cases hdoneB
    | done resB =>
      rw [hfa] at hpA hsum
      rw [hfb] at hpB hsum
      rcases hpA with ⟨cA, hresA, hcAe⟩ | ⟨hshapeA, hcntA⟩ <;>
        rcases hpB with ⟨cB, hresB, hcBe⟩ | ⟨hshapeB, hcntB⟩
      · rw [hresA, hresB] at hsum
        simp [isCreated] at hsum
        omega
      · have hcrB : isCreated (CreateProc.done resB) = false := by
          rcases hshapeB with h | h <;> rw [h] <;> rfl
        rw [hresA] at hsum
        rw [hcrB] at hsum
        simp [isCreated] at hsum
        refine ⟨by omega, Or.inl ⟨by rw [hresA]; rfl, hcrB⟩, ?_, ?_⟩
        · intro res hres hncr
          rw [hresA] at hres hncr
          simp [isCreated] at hncr
        · intro res hres _
          injection hres with he0
          rw [← he0]
          exact hshapeB
      · have hcrA : isCreated (CreateProc.done resA) = false := by
          rcases hshapeA with h | h <;> rw [h] <;> rfl
        rw [hresB] at hsum
        rw [hcrA] at hsum
        simp [isCreated] at hsum
        refine ⟨by omega, Or.inr ⟨hcrA, by rw [hresB]; rfl⟩, ?_, ?_⟩
        · intro res hres _
          injection hres with he0
          rw [← he0]
          exact hshapeA
        · intro res hres hncr
          rw [hresB] at hres hncr
          simp [isCreated] at hncr
      · have hcrA : isCreated (CreateProc.done resA) = false := by
          rcases hshapeA with h | h <;> rw [h] <;> rfl
        have hcrB : isCreated (CreateProc.done resB) = false := by
          rcases hshapeB with h | h <;> rw [h] <;> rfl
        rw [hcrA, hcrB] at hsum
        omega

/-- Witness for C9 (amended) at the concrete interleaving A-check, B-check,
A-write, B-write from the empty store. -/
theorem concurrent_create_one_success_witness :
    emailCount (runSchedule [false, true, false, true]
        { db := dbEmptyF, pA := CreateProc.start adaBody, pB := CreateProc.start adaBody }).db
        ("ada@example.com") = 1
    ∧ ((isCreated (runSchedule [false, true, false, true]
          { db := dbEmptyF, pA := CreateProc.start adaBody, pB := CreateProc.start adaBody }).pA = true
        ∧ isCreated (runSchedule [false, true, false, true]
          { db := dbEmptyF, pA := CreateProc.start adaBody, pB := CreateProc.start adaBody }).pB = false)
      ∨ (isCreated (runSchedule [false, true, false, true]
          { db := dbEmptyF, pA := CreateProc.start adaBody, pB := CreateProc.start adaBody }).pA = false
        ∧ isCreated (runSchedule [false, true, false, true]
          { db := dbEmptyF, pA := CreateProc.start adaBody, pB := CreateProc.start adaBody }).pB = true))
    ∧ (∀ res, (runSchedule [false, true, false, true]
          { db := dbEmptyF, pA := CreateProc.start adaBody, pB := CreateProc.start adaBody }).pA
          = CreateProc.done res →
        isCreated (runSchedule [false, true, false, true]
          { db := dbEmptyF, pA := CreateProc.start adaBody, pB := CreateProc.start adaBody }).pA = false →
        res = ApiResponse.err 400 ("A customer with this email already exists")
        ∨ res = ApiResponse.err 500 ("Something went wrong"))
    ∧ (∀ res, (runSchedule [false, true, false, true]
          { db := dbEmptyF, pA := CreateProc.start adaBody, pB := CreateProc.start adaBody }).pB
          = CreateProc.done res →
        isCreated (runSchedule [false, true, false, true]
          { db := dbEmptyF, pA := CreateProc.start adaBody, pB := CreateProc.start adaBody }).pB = false →
        res = ApiResponse.err 400 ("A customer with this email already exists")
        ∨ res = ApiResponse.err 500 ("Something went wrong")) :=
  concurrent_create_one_success dbEmptyF adaBody adaBody ("ada@example.com")
    [false, true, false, true]
    (runSchedule [false, true, false, true]
      { db := dbEmptyF, pA := CreateProc.start adaBody, pB := CreateProc.start adaBody })
    ⟨⟨"Ada", rfl, by decide⟩, ⟨"Lovelace", rfl, by decide⟩, rfl, by decide⟩
    ⟨⟨"Ada", rfl, by decide⟩, ⟨"Lovelace", rfl, by decide⟩, rfl, by decide⟩
    (by decide) rfl (by decide) (by decide)

end SwiftRental
